import Mathlib

/-!
Verification of the `web_scraper` pipeline (`src/scraper.py`).

The embedding below translates the methods of the `Scraper` class into pure
Lean functions.  The parsed HTML page (the BeautifulSoup object) is modelled
by the two element lists that `scrape_article_data` queries from it:
the story-link anchors in document order and the text of the score spans in
document order.  Python exceptions are modelled with `Except`; machine
integers do not overflow here (Python ints are unbounded), so scores are
plain `Nat` (a digit string parsed by `int` is never negative).
-/

namespace WebScraper

/-- record built by `scrape_article_data`: the Python dict with keys
`"title"`, `"link"`, `"score"`. -/
structure Article where
  title : String
  link : String
  score : Nat
  deriving DecidableEq, Repr

/-- one anchor matched by `soup.find_all("a", "storylink")`: its `href`
attribute and its `next_element` (the title text). -/
structure Storylink where
  href : String
  title : String
  deriving DecidableEq, Repr

/-- the parsed page as `scrape_article_data` consumes it: the story links in
document order, and the `next_element` text of every span matched by
`soup.find_all("span", "score")`, in document order. -/
structure Soup where
  storylinks : List Storylink
  scores : List String
  deriving DecidableEq, Repr

/-- Python exceptions the embedded code can raise: `IndexError` from
`titles[index]` / `links[index]` / `article[i]`, `ValueError` from
`int("")`, and `requests.exceptions.ConnectionError` from `requests.get`. -/
inductive PyError where
  | indexError
  | valueError
  | connectionError
  deriving DecidableEq, Repr

/-- value of Python `int(s)` on the digit-only buffer `temp_num`
(the buffer only ever holds characters for which `isdigit` was true). -/
def natOfDigits (cs : List Char) : Nat :=
  cs.foldl (fun n c => 10 * n + (c.toNat - 48)) 0

/-- inner loop of `scrape_article_data` over one score element's text
(`for char in temp_score`): digits are appended to `temp_num`; at the first
non-digit the record is appended (`titles[index]` may raise `IndexError`,
`int(temp_num)` raises `ValueError` when the buffer is empty), the buffer is
reset, the index advanced, and the loop `break`s.  Returns the optional
emitted record together with the new buffer and index. -/
def scanChars (storylinks : List Storylink) :
    List Char → List Char → Nat → Except PyError (Option Article × List Char × Nat)
  | [], tempNum, index => .ok (none, tempNum, index)
  | c :: rest, tempNum, index =>
    if c.isDigit then
      scanChars storylinks rest (tempNum ++ [c]) index
    else
      match storylinks[index]? with
      | none => .error .indexError
      | some sl =>
        if tempNum = [] then .error .valueError
        else .ok (some ⟨sl.title, sl.href, natOfDigits tempNum⟩, [], index + 1)

/-- outer loop of `scrape_article_data`
(`for score in self.soup.find_all("span", "score")`), threading the
`articles` accumulator, the digit buffer `temp_num` and the pairing
`index` — note the buffer and index survive from one score element to
the next. -/
def scrapeLoop (storylinks : List Storylink) :
    List String → List Article → List Char → Nat → Except PyError (List Article)
  | [], articles, _, _ => .ok articles
  | s :: rest, articles, tempNum, index =>
    match scanChars storylinks s.data tempNum index with
    | .error e => .error e
    | .ok (none, tempNum2, index2) => scrapeLoop storylinks rest articles tempNum2 index2
    | .ok (some a, tempNum2, index2) =>
        scrapeLoop storylinks rest (articles ++ [a]) tempNum2 index2

/-- embedding of `Scraper.scrape_article_data`. -/
def scrape_article_data (soup : Soup) : Except PyError (List Article) :=
  scrapeLoop soup.storylinks soup.scores [] [] 0

/-- outcome of the HTTP GET issued in `Scraper.__init__`: either the network
fails, or the server answers with some status code and body. -/
inductive FetchResult where
  | networkError
  | response (status : Nat) (body : String)
  deriving DecidableEq, Repr

/-- model of `requests.get`: raises on network failure, returns the response
object for every HTTP status code (the code never calls
`raise_for_status`, and `requests.get` does not raise on non-2xx). -/
def requests_get : FetchResult → Except PyError (Nat × String)
  | .networkError => .error .connectionError
  | .response status body => .ok (status, body)

/-- embedding of `Scraper.__init__`: performs the GET and hands `page.text`
(the body, whatever the status code) to `BeautifulSoup`, which parses any
input without raising; the function returns the text the soup is built
from. -/
def scraperInit (f : FetchResult) : Except PyError String :=
  match requests_get f with
  | .error e => .error e
  | .ok page => .ok page.2

/-- an HTTP status code in the 2xx success range. -/
def statusSuccess (status : Nat) : Bool :=
  200 ≤ status && status < 300

/-- one MongoDB document of the `articles` collection: the server returns
`_id` first, then the three inserted fields in insertion order. -/
structure StoredDoc where
  id : Nat
  title : String
  link : String
  score : Nat
  deriving DecidableEq, Repr

/-- the insertion loop of `store_articles_in_database`
(`for article in articles: collection.insert_one(article)`); the store
assigns each document a fresh id. -/
def insertAll : Nat → List Article → List StoredDoc
  | _, [] => []
  | n, a :: rest => ⟨n, a.title, a.link, a.score⟩ :: insertAll (n + 1) rest

/-- embedding of `Scraper.store_articles_in_database`: if the collection
holds any documents they are all deleted (`delete_many({})`), then every
incoming article is inserted; the repopulated collection is returned. -/
def store_articles_in_database (prior : List StoredDoc) (articles : List Article) :
    List StoredDoc :=
  let collection := if prior.length > 0 then [] else prior
  collection ++ insertAll 0 articles

/-- one field value of a returned document, as it appears in
`list(article.values())`: the object id, a text field, or the integer
score. -/
inductive Value where
  | vId (n : Nat)
  | vStr (s : String)
  | vInt (n : Nat)
  deriving DecidableEq, Repr

/-- `list(article.values())` for a document read back from MongoDB:
`_id` first, then title, link, score. -/
def docValues (d : StoredDoc) : List Value :=
  [Value.vId d.id, Value.vStr d.title, Value.vStr d.link, Value.vInt d.score]

/-- the comparison used by `collection.find().sort("score", -1)`:
descending by the `score` field. -/
def scoreGe (a b : StoredDoc) : Prop := b.score ≤ a.score

instance : DecidableRel scoreGe := fun a b => Nat.decLe b.score a.score

instance : IsTotal StoredDoc scoreGe := ⟨fun a b => Nat.le_total b.score a.score⟩

instance : IsTrans StoredDoc scoreGe := ⟨fun _ _ _ h1 h2 => Nat.le_trans h2 h1⟩

/-- embedding of `Scraper.sort_articles_by_score`: read every document back
sorted descending by score (a stable sort over the collection's natural
order models the server's sort) and turn each into its value list. -/
def sort_articles_by_score (collection : List StoredDoc) : List (List Value) :=
  (List.insertionSort scoreGe collection).map docValues

/-- Python `str()` of a document field value, as interpolated by the
f-string in `write_articles_to_file`. -/
def pyStr : Value → String
  | .vId n => toString n
  | .vStr s => s
  | .vInt n => toString n

/-- the f-string written for one row:
`f"Title: \x7barticle[1]\x7d \nLink: \x7barticle[2]\x7d \nPoints: \x7barticle[3]\x7d \n\n"`;
`article[i]` raises `IndexError` on a short row. -/
def renderRow (row : List Value) : Except PyError String :=
  match row[1]?, row[2]?, row[3]? with
  | some t, some l, some p =>
      .ok ("Title: " ++ pyStr t ++ " \nLink: " ++ pyStr l ++ " \nPoints: " ++ pyStr p ++ " \n\n")
  | _, _, _ => .error .indexError

/-- the write loop of `write_articles_to_file`, accumulating what the
file handle receives. -/
def writeLoop : List (List Value) → String → Except PyError String
  | [], acc => .ok acc
  | row :: rest, acc =>
    match renderRow row with
    | .error e => .error e
    | .ok s => writeLoop rest (acc ++ s)

/-- embedding of `Scraper.write_articles_to_file`: the file is opened with
mode `w` (truncated), and each of `sorted_articles[0:4]` is written in the
fixed format; the result is the full file content. -/
def write_articles_to_file (sorted_articles : List (List Value)) : Except PyError String :=
  writeLoop (sorted_articles.take 4) ""

/-- integer formed by the digit characters preceding the first non-digit of
a score text (the spec's per-element parse). -/
def scoreOf (s : String) : Nat :=
  natOfDigits (s.data.takeWhile Char.isDigit)

/-- score text in the shape the spec calls a matched pair's score text:
at least one leading digit, followed by at least one non-digit
terminator. -/
def wellFormedScore (s : String) : Bool :=
  (s.data.takeWhile Char.isDigit != []) && (s.data.dropWhile Char.isDigit != [])

/-- record the spec pairs with the i-th story link and the i-th score
text. -/
def pairRecord (sl : Storylink) (s : String) : Article :=
  ⟨sl.title, sl.href, scoreOf s⟩

/-- concatenation of a list of strings. -/
def concatAll : List String → String
  | [] => ""
  | s :: rest => s ++ concatAll rest

/-- per-record block as the code actually renders it (note the space before
each newline). -/
def fmtDoc (d : StoredDoc) : String :=
  "Title: " ++ d.title ++ " \nLink: " ++ d.link ++ " \nPoints: " ++ toString d.score ++ " \n\n"

/-- article carried by a well-shaped ranked row `[id, title, link, score]`. -/
def rowArticle : List Value → Option Article
  | [Value.vId _, Value.vStr t, Value.vStr l, Value.vInt n] => some ⟨t, l, n⟩
  | _ => none

/-- score carried by a well-shaped ranked row. -/
def rowScore : List Value → Nat
  | [Value.vId _, Value.vStr _, Value.vStr _, Value.vInt n] => n
  | _ => 0

/-- closed-form description of `scanChars` on one score element's text:
if the text never reaches a non-digit, no record is emitted and the digit
run is appended to the carried buffer; otherwise a record is emitted at the
current index whose score is the integer of the carried buffer followed by
the text's leading digit run (an empty combined buffer raises `ValueError`,
a missing story link raises `IndexError`). -/
def scanSpec (storylinks : List Storylink) (text tempNum : List Char) (index : Nat) :
    Except PyError (Option Article × List Char × Nat) :=
  if text.dropWhile Char.isDigit = [] then
    .ok (none, tempNum ++ text.takeWhile Char.isDigit, index)
  else
    match storylinks[index]? with
    | none => .error .indexError
    | some sl =>
      if tempNum ++ text.takeWhile Char.isDigit = [] then .error .valueError
      else
        .ok (some ⟨sl.title, sl.href, natOfDigits (tempNum ++ text.takeWhile Char.isDigit)⟩,
          [], index + 1)

/-- outer extraction loop restated over `scanSpec`. -/
def scrapeSpecLoop (storylinks : List Storylink) :
    List String → List Article → List Char → Nat → Except PyError (List Article)
  | [], articles, _, _ => .ok articles
  | s :: rest, articles, tempNum, index =>
    match scanSpec storylinks s.data tempNum index with
    | .error e => .error e
    | .ok (none, tempNum2, index2) => scrapeSpecLoop storylinks rest articles tempNum2 index2
    | .ok (some a, tempNum2, index2) =>
        scrapeSpecLoop storylinks rest (articles ++ [a]) tempNum2 index2

/-- extraction as described by the (amended) spec: fold `scanSpec` over the
score texts with an explicit carried digit buffer. -/
def scrapeSpec (soup : Soup) : Except PyError (List Article) :=
  scrapeSpecLoop soup.storylinks soup.scores [] [] 0

/-! ## Helper lemmas -/

/-- the character loop agrees with its closed form. -/
theorem scanChars_eq_scanSpec (storylinks : List Storylink) :
    ∀ (text tempNum : List Char) (index : Nat),
      scanChars storylinks text tempNum index = scanSpec storylinks text tempNum index := by
  intro text
  induction text with
  | nil =>
    intro tempNum index
    simp [scanChars, scanSpec]
  | cons c rest ih =>
    intro tempNum index
    by_cases hc : c.isDigit
    · rw [scanChars, if_pos hc, ih]
      simp only [scanSpec, List.takeWhile_cons_of_pos hc, List.dropWhile_cons_of_pos hc,
        List.append_assoc, List.singleton_append]
    · rw [scanChars, if_neg hc]
      simp only [scanSpec, List.takeWhile_cons_of_neg hc, List.dropWhile_cons_of_neg hc,
        List.append_nil]
      simp [hc]

/-- the extraction loop agrees with its `scanSpec` restatement. -/
theorem scrapeLoop_eq_specLoop (storylinks : List Storylink) :
    ∀ (scores : List String) (articles : List Article) (tempNum : List Char) (index : Nat),
      scrapeLoop storylinks scores articles tempNum index =
        scrapeSpecLoop storylinks scores articles tempNum index := by
  intro scores
  induction scores with
  | nil => intro articles tempNum index; rfl
  | cons s rest ih =>
    intro articles tempNum index
    rw [scrapeLoop, scrapeSpecLoop, scanChars_eq_scanSpec]
    cases scanSpec storylinks s.data tempNum index with
    | error e => rfl
    | ok v =>
      obtain ⟨oa, tempNum2, index2⟩ := v
      cases oa with
      | none => exact ih articles tempNum2 index2
      | some a => exact ih (articles ++ [a]) tempNum2 index2

/-- with an empty buffer, a well-formed score text and a story link at the
current index, the scan emits exactly the pair the spec describes. -/
theorem scanChars_wellFormed {storylinks : List Storylink} {s : String} {index : Nat}
    (hwf : wellFormedScore s = true) (hidx : index < storylinks.length) :
    scanChars storylinks s.data [] index =
      .ok (some (pairRecord (storylinks[index]) s), [], index + 1) := by
  rw [scanChars_eq_scanSpec]
  simp only [wellFormedScore, Bool.and_eq_true, bne_iff_ne, ne_eq] at hwf
  obtain ⟨htake, hdrop⟩ := hwf
  simp only [scanSpec, if_neg hdrop, List.getElem?_eq_getElem hidx, List.nil_append,
    if_neg htake]
  rfl

/-- extraction over well-formed score texts with enough story links: every
text emits, pairing the i-th link with the i-th text. -/
theorem scrapeLoop_wellFormed (storylinks : List Storylink) :
    ∀ (scores : List String) (articles : List Article) (index : Nat),
      (∀ s ∈ scores, wellFormedScore s = true) →
      index + scores.length ≤ storylinks.length →
      scrapeLoop storylinks scores articles [] index =
        .ok (articles ++ List.zipWith pairRecord (storylinks.drop index) scores) := by
  intro scores
  induction scores with
  | nil =>
    intro articles index _ _
    simp [scrapeLoop]
  | cons s rest ih =>
    intro articles index h hlen
    have hidx : index < storylinks.length := by
      have := hlen
      simp only [List.length_cons] at this
      omega
    have hscan := scanChars_wellFormed (h s (by simp)) hidx
    simp only [scrapeLoop, hscan]
    rw [ih (articles ++ [pairRecord storylinks[index] s]) (index + 1)
      (fun t ht => h t (by simp [ht])) (by simp only [List.length_cons] at hlen; omega)]
    rw [List.drop_eq_getElem_cons hidx, List.zipWith_cons_cons]
    simp

/-- extraction over well-formed score texts with too few story links: the
emission that runs past the last link raises `IndexError`. -/
theorem scrapeLoop_indexError (storylinks : List Storylink) :
    ∀ (scores : List String) (articles : List Article) (index : Nat),
      (∀ s ∈ scores, wellFormedScore s = true) →
      index ≤ storylinks.length →
      storylinks.length < index + scores.length →
      scrapeLoop storylinks scores articles [] index = .error PyError.indexError := by
  intro scores
  induction scores with
  | nil =>
    intro articles index _ hle hlt
    simp only [List.length_nil] at hlt
    omega
  | cons s rest ih =>
    intro articles index h hle hlt
    rcases Nat.lt_or_ge index storylinks.length with hidx | hidx
    · have hscan := scanChars_wellFormed (h s (by simp)) hidx
      simp only [scrapeLoop, hscan]
      exact ih (articles ++ [pairRecord storylinks[index] s]) (index + 1)
        (fun t ht => h t (by simp [ht])) hidx
        (by simp only [List.length_cons] at hlt; omega)
    · have hnone : storylinks[index]? = none := by
        simp [List.getElem?_eq_none_iff]
        omega
      have hs := h s (by simp)
      simp only [wellFormedScore, Bool.and_eq_true, bne_iff_ne, ne_eq] at hs
      rw [scrapeLoop, scanChars_eq_scanSpec]
      simp only [scanSpec, if_neg hs.2, hnone]

/-- when the scan emits a record, the record's title and link come from the
story link at the current index and the index advances by one. -/
theorem scanChars_emit {storylinks : List Storylink} {text tempNum : List Char} {index : Nat}
    {a : Article} {tempNum2 : List Char} {index2 : Nat}
    (h : scanChars storylinks text tempNum index = .ok (some a, tempNum2, index2)) :
    index2 = index + 1 ∧
      ∃ sl, storylinks[index]? = some sl ∧ a.title = sl.title ∧ a.link = sl.href := by
  rw [scanChars_eq_scanSpec] at h
  unfold scanSpec at h
  split at h
  · simp at h
  · split at h
    · simp at h
    · next sl hsl =>
      split at h
      · simp at h
      · simp only [Except.ok.injEq, Prod.mk.injEq, Option.some.injEq] at h
        obtain ⟨ha, _, hi⟩ := h
        exact ⟨hi.symm, sl, hsl, by rw [← ha], by rw [← ha]⟩

/-- when the scan emits no record, the index is unchanged. -/
theorem scanChars_noEmit {storylinks : List Storylink} {text tempNum : List Char} {index : Nat}
    {tempNum2 : List Char} {index2 : Nat}
    (h : scanChars storylinks text tempNum index = .ok (none, tempNum2, index2)) :
    index2 = index := by
  rw [scanChars_eq_scanSpec] at h
  unfold scanSpec at h
  split at h
  · simp only [Except.ok.injEq, Prod.mk.injEq] at h
    exact h.2.2.symm
  · split at h
    · simp at h
    · split at h
      · simp at h
      · simp at h

/-- pairing invariant of the extraction loop: the records appended after
`articles` take their titles and links from consecutive story links starting
at the current index. -/
theorem scrapeLoop_pairing (storylinks : List Storylink) :
    ∀ (scores : List String) (articles : List Article) (tempNum : List Char) (index : Nat)
      (res : List Article),
      scrapeLoop storylinks scores articles tempNum index = .ok res →
      ∃ tail, res = articles ++ tail ∧
        ∀ (j : Nat) (a : Article), tail[j]? = some a →
          ∃ sl, storylinks[index + j]? = some sl ∧ a.title = sl.title ∧ a.link = sl.href := by
  intro scores
  induction scores with
  | nil =>
    intro articles tempNum index res h
    simp only [scrapeLoop, Except.ok.injEq] at h
    exact ⟨[], by simp [← h], fun j a hj => by simp at hj⟩
  | cons s rest ih =>
    intro articles tempNum index res h
    rw [scrapeLoop] at h
    cases hscan : scanChars storylinks s.data tempNum index with
    | error e => rw [hscan] at h; exact absurd h (by simp)
    | ok v =>
      obtain ⟨oa, tempNum2, index2⟩ := v
      rw [hscan] at h
      cases oa with
      | none =>
        have hidx := scanChars_noEmit hscan
        rw [hidx] at h
        exact ih articles tempNum2 index res h
      | some a =>
        obtain ⟨hidx, sl, hsl, hta, hla⟩ := scanChars_emit hscan
        subst hidx
        obtain ⟨tail, hres, htail⟩ := ih (articles ++ [a]) tempNum2 (index + 1) res h
        refine ⟨a :: tail, by simp [hres], fun j b hj => ?_⟩
        cases j with
        | zero =>
          simp only [List.getElem?_cons_zero, Option.some.injEq] at hj
          exact ⟨sl, by simpa using hsl, by rw [← hj, hta], by rw [← hj, hla]⟩
        | succ jj =>
          simp only [List.getElem?_cons_succ] at hj
          obtain ⟨sl2, hsl2, h1, h2⟩ := htail jj b hj
          refine ⟨sl2, ?_, h1, h2⟩
          have : index + (jj + 1) = index + 1 + jj := by omega
          rw [this]
          exact hsl2

/-- score texts that never reach a non-digit emit nothing: the loop just
carries the digits and returns the accumulator unchanged. -/
theorem scrapeLoop_noTerminator (storylinks : List Storylink) :
    ∀ (scores : List String) (articles : List Article) (tempNum : List Char) (index : Nat),
      (∀ s ∈ scores, s.data.dropWhile Char.isDigit = []) →
      scrapeLoop storylinks scores articles tempNum index = .ok articles := by
  intro scores
  induction scores with
  | nil => intro articles tempNum index _; rfl
  | cons s rest ih =>
    intro articles tempNum index h
    rw [scrapeLoop, scanChars_eq_scanSpec]
    simp only [scanSpec, if_pos (h s (by simp))]
    exact ih articles (tempNum ++ List.takeWhile Char.isDigit s.data) index
      (fun t ht => h t (by simp [ht]))

/-- the delete-then-insert store always leaves exactly the freshly inserted
documents, whatever the prior contents. -/
theorem store_eq_insertAll (prior : List StoredDoc) (articles : List Article) :
    store_articles_in_database prior articles = insertAll 0 articles := by
  unfold store_articles_in_database
  cases prior with
  | nil => simp
  | cons d rest => simp

/-- the inserted documents carry exactly the articles' fields. -/
theorem insertAll_fields :
    ∀ (n : Nat) (articles : List Article),
      (insertAll n articles).map (fun d => Article.mk d.title d.link d.score) = articles := by
  intro n articles
  induction articles generalizing n with
  | nil => rfl
  | cons a rest ih => simp [insertAll, ih]

/-- the inserted documents, projected to optional articles, are exactly the
input articles. -/
theorem insertAll_values :
    ∀ (n : Nat) (articles : List Article),
      (insertAll n articles).map (fun d => some (Article.mk d.title d.link d.score)) =
        articles.map some := by
  intro n articles
  induction articles generalizing n with
  | nil => rfl
  | cons a rest ih => simp [insertAll, ih]

/-- the write loop over well-shaped rows renders each document's block in
order. -/
theorem writeLoop_docValues :
    ∀ (docs : List StoredDoc) (acc : String),
      writeLoop (docs.map docValues) acc = .ok (acc ++ concatAll (docs.map fmtDoc)) := by
  intro docs
  induction docs with
  | nil => intro acc; simp [writeLoop, concatAll]
  | cons d rest ih =>
    intro acc
    have hrow : renderRow (docValues d) = .ok (fmtDoc d) := rfl
    simp only [List.map_cons, writeLoop, hrow, ih, concatAll]
    rw [String.append_assoc]

/-! ## Claims -/

/-- C1: for every document with N matched (link, score-text) pairs — as many
score texts as story links, each text a non-empty digit run followed by a
non-digit terminator — `scrape_article_data` returns exactly N records, the
i-th pairing the i-th story link's title and href with the integer parsed
from the i-th score text. -/
theorem extract_matched_pairs (soup : Soup)
    (hlen : soup.scores.length = soup.storylinks.length)
    (hwf : ∀ s ∈ soup.scores, wellFormedScore s = true) :
    scrape_article_data soup =
      .ok (List.zipWith pairRecord soup.storylinks soup.scores) ∧
    (List.zipWith pairRecord soup.storylinks soup.scores).length = soup.scores.length := by
  constructor
  · have h := scrapeLoop_wellFormed soup.storylinks soup.scores [] 0 hwf (by omega)
    simpa [scrape_article_data] using h
  · rw [List.length_zipWith]
    omega

/-- witness for C1 on a concrete two-pair document. -/
theorem extract_matched_pairs_witness :
    scrape_article_data ⟨[⟨"/a", "A"⟩, ⟨"/b", "B"⟩], ["42 points", "7 points"]⟩ =
      .ok [⟨"A", "/a", 42⟩, ⟨"B", "/b", 7⟩] :=
  (extract_matched_pairs ⟨[⟨"/a", "A"⟩, ⟨"/b", "B"⟩], ["42 points", "7 points"]⟩
    (by decide) (by decide)).1

/-- C2 counterexample: with score texts `["42", "3 p"]` the first text has no
non-digit terminator, so its digits stay in the buffer and the record emitted
while scanning the second text gets score 423 — not 3, the integer formed by
the digit characters preceding the first non-digit of that text. -/
theorem extract_score_carry_counterexample :
    scrape_article_data ⟨[⟨"/a", "A"⟩, ⟨"/b", "B"⟩], ["42", "3 p"]⟩ =
      .ok [⟨"A", "/a", 423⟩] ∧ scoreOf "3 p" = 3 ∧ (423 : Nat) ≠ 3 :=
  ⟨rfl, rfl, by decide⟩

/-- C2 amended: the extraction equals its closed-form description — per score
element, if the text never reaches a non-digit no record is emitted and the
digit run joins the carried buffer; otherwise a record is emitted whose score
is the integer of the carried buffer followed by the element's leading digit
run, after which the buffer is reset, the index advances, and scanning of the
element stops. -/
theorem extract_eq_scrapeSpec (soup : Soup) :
    scrape_article_data soup = scrapeSpec soup :=
  scrapeLoop_eq_specLoop soup.storylinks soup.scores [] [] 0

/-- C3 counterexample: a document with zero story links but one score element
(`"1 x"`) has mismatched counts, yet extraction raises `IndexError` instead
of returning the overlapping (empty) range without error. -/
theorem extract_mismatch_counterexample :
    (Soup.mk [] ["1 x"]).storylinks.length ≠ (Soup.mk [] ["1 x"]).scores.length ∧
    scrape_article_data ⟨[], ["1 x"]⟩ = .error PyError.indexError :=
  ⟨by decide, rfl⟩

/-- C3 amended: with well-formed score texts, when the story links are at
least as many as the score texts the overlapping range is emitted without
error, but when emissions outnumber the story links the out-of-range lookup
raises `IndexError` rather than silently skipping the trailing entry. -/
theorem extract_mismatch_behavior (soup : Soup)
    (hwf : ∀ s ∈ soup.scores, wellFormedScore s = true) :
    (soup.scores.length ≤ soup.storylinks.length →
      scrape_article_data soup = .ok (List.zipWith pairRecord soup.storylinks soup.scores)) ∧
    (soup.storylinks.length < soup.scores.length →
      scrape_article_data soup = .error PyError.indexError) := by
  constructor
  · intro hle
    have h := scrapeLoop_wellFormed soup.storylinks soup.scores [] 0 hwf (by omega)
    simpa [scrape_article_data] using h
  · intro hlt
    have h := scrapeLoop_indexError soup.storylinks soup.scores [] 0 hwf (by omega) (by omega)
    simpa [scrape_article_data] using h

/-- witness for C3 as amended: two links with one score text emit one record
without error; one link with two score texts raises `IndexError`. -/
theorem extract_mismatch_behavior_witness :
    scrape_article_data ⟨[⟨"/a", "A"⟩, ⟨"/b", "B"⟩], ["42 pts"]⟩ = .ok [⟨"A", "/a", 42⟩] ∧
    scrape_article_data ⟨[⟨"/a", "A"⟩], ["42 pts", "7 pts"]⟩ = .error PyError.indexError :=
  ⟨(extract_mismatch_behavior ⟨[⟨"/a", "A"⟩, ⟨"/b", "B"⟩], ["42 pts"]⟩ (by decide)).1
      (by decide),
   (extract_mismatch_behavior ⟨[⟨"/a", "A"⟩], ["42 pts", "7 pts"]⟩ (by decide)).2
      (by decide)⟩

/-- C4 counterexample: a 500 response is not a success status, yet the
constructor's fetch returns the error page body and the pipeline continues
past the fetch stage. -/
theorem fetch_nonsuccess_counterexample :
    statusSuccess 500 = false ∧
    scraperInit (FetchResult.response 500 "Internal Server Error") =
      .ok "Internal Server Error" :=
  ⟨rfl, rfl⟩

/-- C4 amended: a network failure propagates as a fatal error, but a non-2xx
HTTP status does not — `requests.get` is never asked to raise for status, so
the constructor succeeds with the response body for every status code. -/
theorem fetch_error_behavior :
    scraperInit FetchResult.networkError = .error PyError.connectionError ∧
    ∀ (status : Nat) (body : String),
      scraperInit (FetchResult.response status body) = .ok body :=
  ⟨rfl, fun _ _ => rfl⟩

/-- C5: storing a batch of records and ranking returns exactly the inserted
records — no more, no fewer, whatever the collection held before — with
scores descending across adjacent rows. -/
theorem store_rank_exact_desc (prior : List StoredDoc) (articles : List Article) :
    ((sort_articles_by_score (store_articles_in_database prior articles)).map rowArticle).Perm
        (articles.map some) ∧
    List.Chain' (fun r1 r2 => rowScore r2 ≤ rowScore r1)
      (sort_articles_by_score (store_articles_in_database prior articles)) := by
  rw [store_eq_insertAll]
  constructor
  · have hperm := (List.perm_insertionSort scoreGe (insertAll 0 articles)).map
      (fun d => some (Article.mk d.title d.link d.score))
    have hmap : (sort_articles_by_score (insertAll 0 articles)).map rowArticle =
        (List.insertionSort scoreGe (insertAll 0 articles)).map
          (fun d => some (Article.mk d.title d.link d.score)) := by
      unfold sort_articles_by_score
      rw [List.map_map]
      rfl
    rw [hmap, ← insertAll_values 0 articles]
    exact hperm
  · have hsorted := List.sorted_insertionSort scoreGe (insertAll 0 articles)
    have hp : List.Pairwise (fun r1 r2 => rowScore r2 ≤ rowScore r1)
        ((List.insertionSort scoreGe (insertAll 0 articles)).map docValues) := by
      rw [List.pairwise_map]
      exact hsorted
    exact hp.chain'

/-- C6 counterexample: the rendered block for one record carries a space
before every newline, so the file does not round-trip in the documented
`Title: <t>\nLink: <l>\nPoints: <s>\n\n` format. -/
theorem write_format_counterexample :
    write_articles_to_file [[Value.vId 0, Value.vStr "A", Value.vStr "/a", Value.vInt 42]] =
      .ok "Title: A \nLink: /a \nPoints: 42 \n\n" ∧
    "Title: A \nLink: /a \nPoints: 42 \n\n" ≠ "Title: A\nLink: /a\nPoints: 42\n\n" :=
  ⟨rfl, by decide⟩

/-- C6 amended: for every ranked row list, the file content is exactly the
top-4 records' title, link and score rendered one block per record in the
format `Title: <t> \nLink: <l> \nPoints: <s> \n\n` (a space before each
newline), and nothing else. -/
theorem write_rendered_blocks (docs : List StoredDoc) :
    write_articles_to_file (docs.map docValues) =
      .ok (concatAll ((docs.take 4).map fmtDoc)) := by
  unfold write_articles_to_file
  rw [← List.map_take, writeLoop_docValues, String.empty_append]

/-- C7 counterexample: markup whose single score text `"pts"` yields no
parseable number makes the scan call `int("")`, raising `ValueError` instead
of returning an empty sequence. -/
theorem extract_malformed_counterexample :
    scrape_article_data ⟨[⟨"/a", "A"⟩], ["pts"]⟩ = .error PyError.valueError :=
  rfl

/-- C7 amended: absent markup is harmless only as long as no score element
reaches a non-digit character: if every score text (in particular, if there
are none at all) consists purely of digits, extraction returns the empty
sequence without error. -/
theorem extract_absent_markup_empty (soup : Soup)
    (h : ∀ s ∈ soup.scores, s.data.dropWhile Char.isDigit = []) :
    scrape_article_data soup = .ok [] :=
  scrapeLoop_noTerminator soup.storylinks soup.scores [] [] 0 h

/-- witness for C7 as amended: a document with no matched elements at all
yields the empty record list. -/
theorem extract_absent_markup_empty_witness :
    scrape_article_data ⟨[], []⟩ = .ok [] :=
  extract_absent_markup_empty ⟨[], []⟩ (by decide)

/-- C8 counterexample: on the three-triple scenario the extraction result is
as claimed, but the rendered file is not in the specified
`Title: <t>\nLink: <l>\nPoints: <s>\n\n` line format — every line carries a
trailing space. -/
theorem scenario_counterexample :
    scrape_article_data ⟨[⟨"/a", "A"⟩, ⟨"/b", "B"⟩, ⟨"/c", "C"⟩],
        ["42 points", "7 points", "100 points"]⟩ =
      .ok [⟨"A", "/a", 42⟩, ⟨"B", "/b", 7⟩, ⟨"C", "/c", 100⟩] ∧
    write_articles_to_file (sort_articles_by_score (store_articles_in_database []
        [⟨"A", "/a", 42⟩, ⟨"B", "/b", 7⟩, ⟨"C", "/c", 100⟩])) ≠
      .ok ("Title: C\nLink: /c\nPoints: 100\n\n" ++
        "Title: A\nLink: /a\nPoints: 42\n\n" ++ "Title: B\nLink: /b\nPoints: 7\n\n") :=
  ⟨rfl, fun h => absurd (Except.ok.inj h) (by decide)⟩

/-- C8 amended: the scenario extracts the three records in document order,
store plus rank returns them descending by score with the store-assigned ids
in front, and the file (count 4 over 3 records) renders all three in rank
order — in the actual format, with a space before each newline. -/
theorem scenario_behavior :
    scrape_article_data ⟨[⟨"/a", "A"⟩, ⟨"/b", "B"⟩, ⟨"/c", "C"⟩],
        ["42 points", "7 points", "100 points"]⟩ =
      .ok [⟨"A", "/a", 42⟩, ⟨"B", "/b", 7⟩, ⟨"C", "/c", 100⟩] ∧
    sort_articles_by_score (store_articles_in_database []
        [⟨"A", "/a", 42⟩, ⟨"B", "/b", 7⟩, ⟨"C", "/c", 100⟩]) =
      [[Value.vId 2, Value.vStr "C", Value.vStr "/c", Value.vInt 100],
       [Value.vId 0, Value.vStr "A", Value.vStr "/a", Value.vInt 42],
       [Value.vId 1, Value.vStr "B", Value.vStr "/b", Value.vInt 7]] ∧
    write_articles_to_file (sort_articles_by_score (store_articles_in_database []
        [⟨"A", "/a", 42⟩, ⟨"B", "/b", 7⟩, ⟨"C", "/c", 100⟩])) =
      .ok ("Title: C \nLink: /c \nPoints: 100 \n\n" ++
        "Title: A \nLink: /a \nPoints: 42 \n\n" ++ "Title: B \nLink: /b \nPoints: 7 \n\n") :=
  ⟨rfl, rfl, rfl⟩

/-- C9: whenever extraction succeeds, the k-th emitted record takes its title
and link from the k-th story link — the pairing index advances only on
emission, so a score element that emits nothing shifts the pairing of every
later record instead of consuming its own ordinal. -/
theorem extract_pairing_by_emission (soup : Soup) (res : List Article)
    (h : scrape_article_data soup = .ok res) :
    ∀ (k : Nat) (a : Article), res[k]? = some a →
      ∃ sl, soup.storylinks[k]? = some sl ∧ a.title = sl.title ∧ a.link = sl.href := by
  obtain ⟨tail, hres, htail⟩ :=
    scrapeLoop_pairing soup.storylinks soup.scores [] [] 0 res h
  intro k a hk
  simp only [List.nil_append] at hres
  subst hres
  have := htail k a hk
  simpa using this

/-- witness for C9: the unterminated text `"5"` emits nothing, so the single
record (score 57) still pairs with story link 0. -/
theorem extract_pairing_by_emission_witness :
    ∃ sl, ([⟨"/a", "A"⟩, ⟨"/b", "B"⟩] : List Storylink)[0]? = some sl ∧
      (Article.mk "A" "/a" 57).title = sl.title ∧ (Article.mk "A" "/a" 57).link = sl.href :=
  extract_pairing_by_emission ⟨[⟨"/a", "A"⟩, ⟨"/b", "B"⟩], ["5", "7 p"]⟩
    [⟨"A", "/a", 57⟩] rfl 0 ⟨"A", "/a", 57⟩ rfl

/-- C10: every ranked row is the four-element value list of a stored
document — id first, then title, link, score — and the rendered file reads
positions 1, 2 and 3 of each row, so the blocks carry each record's title,
link and score and the store-assigned id is never written. -/
theorem rank_row_shape_render (collection : List StoredDoc) :
    (∀ row ∈ sort_articles_by_score collection, ∃ d ∈ collection, row = docValues d) ∧
    write_articles_to_file (sort_articles_by_score collection) =
      .ok (concatAll (((List.insertionSort scoreGe collection).take 4).map fmtDoc)) := by
  constructor
  · intro row hrow
    unfold sort_articles_by_score at hrow
    rw [List.mem_map] at hrow
    obtain ⟨d, hd, hrow⟩ := hrow
    exact ⟨d, (List.perm_insertionSort scoreGe collection).subset hd, hrow.symm⟩
  · unfold sort_articles_by_score write_articles_to_file
    rw [← List.map_take, writeLoop_docValues, String.empty_append]

/-- witness for C10 on a one-document collection. -/
theorem rank_row_shape_render_witness :
    ∃ d ∈ [(⟨5, "T", "/t", 9⟩ : StoredDoc)],
      [Value.vId 5, Value.vStr "T", Value.vStr "/t", Value.vInt 9] = docValues d :=
  (rank_row_shape_render [⟨5, "T", "/t", 9⟩]).1
    [Value.vId 5, Value.vStr "T", Value.vStr "/t", Value.vInt 9] (by decide)

end WebScraper
